import Mathlib

/-!
# EcoCompute AI — verification of the carbon-aware scheduler core

Shallow embedding of the backend modules of the repository
(`job_queue.py`, `carbon_api.py`, `emissions_tracker.py`, `carbon_scheduler.py`).

Conventions of the embedding:
* Python lists/objects become immutable Lean lists/structures; methods that
  mutate `self` become functions from the old state to the new state.
* Timestamps are abstract integers (seconds); `datetime.now()` becomes an
  explicit `now : Int` parameter, `timedelta(hours=6)` becomes `6 * 3600`.
* Python floats become `Rat` (all constants involved are exact decimals).
* The external HTTP fetch of `carbon_api.py` becomes an explicit
  `FetchResult` input; `random.randint(-100, 100)` becomes an explicit
  `jitter : Int` input (its range is a hypothesis where it matters).
* The external CodeCarbon instrument and the wall clock of
  `emissions_tracker.py` become explicit `emissions`/`duration` inputs.
* File persistence (`save_jobs`, `save_emissions_log`) writes the same data
  that the in-memory state holds, so the in-memory state is the model.
-/

namespace EcoCompute

/-! ## job_queue.py — data model -/

/-- `class JobStatus(Enum)` from `job_queue.py`. -/
inductive JobStatus where
  | PENDING
  | SCHEDULED
  | RUNNING
  | COMPLETED
  | DEFERRED
  deriving DecidableEq

/-- The string value of each enum member, exactly as in the source. -/
def JobStatus.value : JobStatus → String
  | .PENDING => "pending"
  | .SCHEDULED => "scheduled"
  | .RUNNING => "running"
  | .COMPLETED => "completed"
  | .DEFERRED => "deferred"

/-- `@dataclass GPUJob` from `job_queue.py`, with the source's defaults.
`submitted_at` is an abstract timestamp (the `__post_init__` clock call is an
input at construction time). -/
structure GPUJob where
  job_id : String
  name : String
  duration_minutes : Int
  power_draw_watts : Int
  priority : Int := 1
  status : String := JobStatus.PENDING.value
  carbon_intensity_threshold : Int := 400
  submitted_at : Int := 0
  scheduled_for : Option Int := none
  emissions_avoided_kg : Rat := 0
  deriving DecidableEq

/-! ## job_queue.py — JobQueue operations (state: the `jobs` list) -/

/-- `JobQueue.get_jobs_by_status`. -/
def get_jobs_by_status (jobs : List GPUJob) (status : String) : List GPUJob :=
  jobs.filter (fun j => j.status == status)

/-- `JobQueue.add_job`: appends and returns the id.  The source performs no
validation whatsoever before appending and persisting. -/
def add_job (jobs : List GPUJob) (job : GPUJob) : List GPUJob × String :=
  (jobs ++ [job], job.job_id)

/-- `JobQueue.update_job_status`: sets `status` on the first job whose id
matches and returns `True`; returns `False` when no job matches. -/
def update_job_status : List GPUJob → String → String → List GPUJob × Bool
  | [], _, _ => ([], false)
  | j :: rest, job_id, new_status =>
    if j.job_id = job_id then
      ({ j with status := new_status } :: rest, true)
    else
      let r := update_job_status rest job_id new_status
      (j :: r.1, r.2)

/-- The sort key of `get_prioritized_queue`: `sorted(key=priority,
reverse=True)` orders by priority descending. -/
def byPriorityDesc (a b : GPUJob) : Prop := b.priority ≤ a.priority

instance : DecidableRel byPriorityDesc :=
  fun a b => inferInstanceAs (Decidable (b.priority ≤ a.priority))

instance : IsTotal GPUJob byPriorityDesc :=
  ⟨fun a b => (le_total b.priority a.priority).imp id id⟩

instance : IsTrans GPUJob byPriorityDesc :=
  ⟨fun _ _ _ h1 h2 => le_trans h2 h1⟩

/-- `JobQueue.get_prioritized_queue`: Python's `sorted` is a stable sort, and
with `reverse=True` it keeps equal-key elements in their original order;
`List.insertionSort` with the descending-priority relation has exactly this
behavior. -/
def get_prioritized_queue (jobs : List GPUJob) : List GPUJob :=
  List.insertionSort byPriorityDesc (get_jobs_by_status jobs JobStatus.PENDING.value)

/-- `JobQueue.calculate_emissions_for_job`:
`power_kw * duration_h * 0.8`. -/
def calculate_emissions_for_job (job : GPUJob) : Rat :=
  ((job.power_draw_watts : Rat) / 1000) * ((job.duration_minutes : Rat) / 60) * (8 / 10)

/-! ## carbon_api.py — CarbonDataProvider -/

/-- Outcome of the single external HTTP request made by
`get_grid_carbon_intensity`. -/
inductive FetchResult where
  /-- HTTP 200 whose payload carries this `carbonIntensity` value
  (the `data.get` default 500 is folded into the value). -/
  | ok (carbonIntensity : Rat)
  /-- A response with a non-200 status code. -/
  | httpError
  /-- An exception: timeout, transport error, or malformed payload. -/
  | exn
  deriving DecidableEq

/-- The dictionary returned by `get_grid_carbon_intensity` /
`_get_mock_data` (the spec's `GridStatus`; `is_mock` is the spec's
`isSynthetic`). -/
structure GridStatus where
  carbonIntensity : Rat
  greenness : String
  recommendation : String
  region : String
  unit : String := "gCO2/kWh"
  is_mock : Bool := false
  deriving DecidableEq

/-- The `mock_data` baseline table of `_get_mock_data`, with its
`.get(region, 500)` default. -/
def mock_baseline (region : String) : Int :=
  if region = "IN" then 800
  else if region = "US" then 400
  else if region = "DE" then 350
  else if region = "NO" then 50
  else if region = "AU" then 600
  else 500

/-- `CarbonDataProvider._get_mock_data`; `jitter` stands for
`random.randint(-100, 100)`. -/
def get_mock_data (region : String) (jitter : Int) : GridStatus :=
  let intensity : Int := mock_baseline region + jitter
  let g : String × String :=
    if intensity < 200 then ("HIGH", "✅ Schedule jobs NOW")
    else if intensity < 400 then ("MEDIUM", "⏳ Monitor grid")
    else ("LOW", "❌ Defer jobs")
  { carbonIntensity := (intensity : Rat),
    greenness := g.1,
    recommendation := g.2,
    region := region,
    is_mock := true }

/-- `CarbonDataProvider.get_grid_carbon_intensity`.  The function is total:
every fetch outcome, including errors, yields a `GridStatus` (the source
catches every exception and falls back to `_get_mock_data`). -/
def get_grid_carbon_intensity (region : String) (fetch : FetchResult)
    (jitter : Int) : GridStatus :=
  match fetch with
  | .ok ci =>
      if ci < 200 then
        { carbonIntensity := ci, greenness := "HIGH",
          recommendation := "✅ Schedule jobs NOW - Clean grid", region := region }
      else if ci < 400 then
        { carbonIntensity := ci, greenness := "MEDIUM",
          recommendation := "⏳ Wait for better conditions", region := region }
      else
        { carbonIntensity := ci, greenness := "LOW",
          recommendation := "❌ Defer jobs - Dirty grid", region := region }
  | .httpError => get_mock_data region jitter
  | .exn => get_mock_data region jitter

/-! ## emissions_tracker.py — GPUEmissionsTracker -/

/-- One record appended by `stop_tracking` (the spec's `EmissionsRecord`).
`emissions_kg_co2` is whatever the external instrument's `stop()` returned
(0 when CodeCarbon is unavailable); `duration_seconds` comes from the wall
clock. -/
structure EmissionsRecord where
  job_name : String
  emissions_kg_co2 : Rat
  duration_seconds : Rat
  country : String
  deriving DecidableEq

/-- The mutable state of `GPUEmissionsTracker`.  `tracker_started` models
`self.tracker is not None` (it starts as `None` and `stop_tracking` never
resets it to `None`). -/
structure TrackerState where
  tracker_started : Bool := false
  current_job : String := ""
  country_code : String := "IN"
  emissions_log : List EmissionsRecord := []
  deriving DecidableEq

/-- `GPUEmissionsTracker.start_tracking`: unconditionally builds a fresh
tracker object (overwriting `self.tracker`) and records the job label.  The
source raises no error when a bracket is already open. -/
def start_tracking (ts : TrackerState) (job_name : String) : TrackerState :=
  { ts with tracker_started := true, current_job := job_name }

/-- `GPUEmissionsTracker.stop_tracking`: returns `{}` (here `none`) and
changes nothing when no tracker exists; otherwise appends a record built
from the instrument's `emissions` value and the measured `duration`. -/
def stop_tracking (ts : TrackerState) (emissions : Rat) (duration : Rat) :
    TrackerState × Option EmissionsRecord :=
  if ts.tracker_started then
    let record : EmissionsRecord :=
      { job_name := ts.current_job, emissions_kg_co2 := emissions,
        duration_seconds := duration, country := ts.country_code }
    ({ ts with emissions_log := ts.emissions_log ++ [record] }, some record)
  else
    (ts, none)

/-- The dictionary returned by `get_emissions_summary`.  `Option` models the
presence of a key: the source's empty-log branch returns a dict that has NO
`max_single_job_kg` / `min_single_job_kg` keys. -/
structure EmissionsSummary where
  total_jobs : Nat
  total_emissions_kg : Rat
  avg_emissions_per_job_kg : Rat
  total_duration_hours : Rat
  max_single_job_kg : Option Rat
  min_single_job_kg : Option Rat
  deriving DecidableEq

/-- Sum of a list of rationals (`df[...].sum()`). -/
def rat_sum (l : List Rat) : Rat := l.foldl (· + ·) 0

/-- `df[...].max()` over a nonempty column; `none` on an empty one. -/
def rat_max : List Rat → Option Rat
  | [] => none
  | x :: xs => some (xs.foldl max x)

/-- `df[...].min()` over a nonempty column; `none` on an empty one. -/
def rat_min : List Rat → Option Rat
  | [] => none
  | x :: xs => some (xs.foldl min x)

/-- `GPUEmissionsTracker.get_emissions_summary`. -/
def get_emissions_summary (log : List EmissionsRecord) : EmissionsSummary :=
  if log.isEmpty then
    { total_jobs := 0, total_emissions_kg := 0, avg_emissions_per_job_kg := 0,
      total_duration_hours := 0,
      max_single_job_kg := none, min_single_job_kg := none }
  else
    let em := log.map (fun r => r.emissions_kg_co2)
    { total_jobs := log.length,
      total_emissions_kg := rat_sum em,
      avg_emissions_per_job_kg := rat_sum em / (log.length : Rat),
      total_duration_hours := rat_sum (log.map (fun r => r.duration_seconds)) / 3600,
      max_single_job_kg := rat_max em,
      min_single_job_kg := rat_min em }

/-! ## carbon_scheduler.py — CarbonAwareScheduler -/

/-- The body of the `for job in pending_jobs` loop of
`schedule_pending_jobs` mutates the stored job twice through the same
aliased object: `update_job_status` sets `status` on the first id match, and
`job.scheduled_for = ...` sets `scheduled_for` on that very object.  This
helper performs both field updates on the first id match. -/
def update_job_fields : List GPUJob → String → String → Int → List GPUJob
  | [], _, _, _ => []
  | j :: rest, job_id, new_status, sched_for =>
    if j.job_id = job_id then
      { j with status := new_status, scheduled_for := some sched_for } :: rest
    else
      j :: update_job_fields rest job_id new_status sched_for

/-- The per-job decision of `schedule_pending_jobs`, applied to the aliased
job object: schedule at `now` when the grid is below the job's threshold,
otherwise defer to `now + 6h`. -/
def decide_job (intensity : Rat) (now : Int) (job : GPUJob) : GPUJob :=
  if intensity < (job.carbon_intensity_threshold : Rat) then
    { job with status := JobStatus.SCHEDULED.value, scheduled_for := some now }
  else
    { job with
        status := JobStatus.DEFERRED.value,
        scheduled_for := some (now + 6 * 3600) }

/-- The `for job in pending_jobs` loop of `schedule_pending_jobs`: walks the
prioritized queue, updating the store and accumulating the
`scheduled_jobs` / `deferred_jobs` lists (whose elements are the mutated
job objects). -/
def schedule_loop (intensity : Rat) (now : Int) :
    List GPUJob → List GPUJob → List GPUJob × List GPUJob × List GPUJob
  | [], store => (store, [], [])
  | job :: rest, store =>
    if intensity < (job.carbon_intensity_threshold : Rat) then
      let store' := update_job_fields store job.job_id JobStatus.SCHEDULED.value now
      let r := schedule_loop intensity now rest store'
      (r.1,
       { job with status := JobStatus.SCHEDULED.value, scheduled_for := some now } :: r.2.1,
       r.2.2)
    else
      let store' := update_job_fields store job.job_id JobStatus.DEFERRED.value (now + 6 * 3600)
      let r := schedule_loop intensity now rest store'
      (r.1,
       r.2.1,
       { job with
           status := JobStatus.DEFERRED.value,
           scheduled_for := some (now + 6 * 3600) } :: r.2.2)

/-- The result dictionary of `schedule_pending_jobs` (timestamp omitted: it
is the `now` input). -/
structure ScheduleResult where
  region : String
  current_carbon_intensity : Rat
  grid_greenness : String
  scheduled_count : Nat
  deferred_count : Nat
  estimated_emissions_saved_kg : Rat
  scheduled_jobs : List GPUJob
  deferred_jobs : List GPUJob
  deriving DecidableEq

/-- `CarbonAwareScheduler.schedule_pending_jobs` (the spec's `evaluate`):
fetch the grid status, read the prioritized queue, classify every queued job,
and return the updated store together with the result record. -/
def schedule_pending_jobs (jobs : List GPUJob) (region : String)
    (fetch : FetchResult) (jitter : Int) (now : Int) :
    List GPUJob × ScheduleResult :=
  let grid_status := get_grid_carbon_intensity region fetch jitter
  let carbon_intensity := grid_status.carbonIntensity
  let pending_jobs := get_prioritized_queue jobs
  let r := schedule_loop carbon_intensity now pending_jobs jobs
  (r.1,
   { region := region,
     current_carbon_intensity := carbon_intensity,
     grid_greenness := grid_status.greenness,
     scheduled_count := r.2.1.length,
     deferred_count := r.2.2.length,
     estimated_emissions_saved_kg := rat_sum (r.2.2.map calculate_emissions_for_job),
     scheduled_jobs := r.2.1,
     deferred_jobs := r.2.2 })

/-- The mutable state of `CarbonAwareScheduler`: its job queue, its
emissions tracker, and the append-only schedule history. -/
structure SchedulerState where
  jobs : List GPUJob
  tracker : TrackerState
  schedule_history : List ScheduleResult
  deriving DecidableEq

/-- The dictionary returned by `run_scheduled_job`. -/
inductive RunResult where
  /-- `{'error': 'Job not found'}`. -/
  | jobNotFound
  /-- `{'job_id': ..., 'status': 'completed', 'emissions_kg_co2': ...,
  'duration_seconds': ...}`. -/
  | completed (job_id : String) (emissions_kg_co2 : Rat) (duration_seconds : Rat)
  deriving DecidableEq

/-- Sets `emissions_avoided_kg` on the first job whose id matches
(`job.emissions_avoided_kg = ...` through the aliased object found by
`next(...)`). -/
def update_job_emissions : List GPUJob → String → Rat → List GPUJob
  | [], _, _ => []
  | j :: rest, job_id, em =>
    if j.job_id = job_id then
      { j with emissions_avoided_kg := em } :: rest
    else
      j :: update_job_emissions rest job_id em

/-- `CarbonAwareScheduler.run_scheduled_job` (the spec's `runJob`).
`emissions` and `duration` are the external instrument's reading and the
wall-clock span of the simulated execution (`time.sleep` has no other
observable effect on the modelled state). -/
def run_scheduled_job (st : SchedulerState) (job_id : String)
    (emissions : Rat) (duration : Rat) : SchedulerState × RunResult :=
  match st.jobs.find? (fun j => j.job_id == job_id) with
  | none => (st, .jobNotFound)
  | some job =>
    let jobs1 := (update_job_status st.jobs job_id JobStatus.RUNNING.value).1
    let tr1 := start_tracking st.tracker job.name
    let stopped := stop_tracking tr1 emissions duration
    match stopped.2 with
    | none =>
        -- unreachable: `start_tracking` has just opened the bracket
        ({ st with jobs := jobs1, tracker := stopped.1 }, .jobNotFound)
    | some record =>
        let jobs2 := update_job_emissions jobs1 job_id record.emissions_kg_co2
        let jobs3 := (update_job_status jobs2 job_id JobStatus.COMPLETED.value).1
        ({ jobs := jobs3, tracker := stopped.1,
           schedule_history := st.schedule_history },
         .completed job_id record.emissions_kg_co2 record.duration_seconds)

/-- The scheduler-level wrapper: `self.schedule_history.append(result)`. -/
def scheduler_evaluate (st : SchedulerState) (region : String)
    (fetch : FetchResult) (jitter : Int) (now : Int) :
    SchedulerState × ScheduleResult :=
  let r := schedule_pending_jobs st.jobs region fetch jitter now
  ({ st with jobs := r.1, schedule_history := st.schedule_history ++ [r.2] }, r.2)

/-! ## Helper lemmas: the job store under first-match field updates -/

/-- The ids of a job list, in order. -/
def jobIds (l : List GPUJob) : List String := l.map GPUJob.job_id

theorem jobIds_cons (j : GPUJob) (l : List GPUJob) :
    jobIds (j :: l) = j.job_id :: jobIds l := rfl

/-- `update_job_fields` preserves the id sequence. -/
theorem jobIds_update_job_fields (l : List GPUJob) (id st : String) (sf : Int) :
    jobIds (update_job_fields l id st sf) = jobIds l := by
  induction l with
  | nil => rfl
  | cons j rest ih =>
    by_cases h : j.job_id = id
    · simp [update_job_fields, h, jobIds]
    · simp [update_job_fields, h, jobIds] at ih ⊢
      exact ih

/-- In a store with pairwise-distinct ids, two members with the same id are
the same job. -/
theorem eq_of_mem_of_jobIds_nodup {l : List GPUJob} (h : (jobIds l).Nodup)
    {x y : GPUJob} (hx : x ∈ l) (hy : y ∈ l) (hid : x.job_id = y.job_id) :
    x = y := by
  induction l with
  | nil => cases hx
  | cons j rest ih =>
    rw [jobIds_cons, List.nodup_cons] at h
    rcases List.mem_cons.mp hx with rfl | hx' <;>
      rcases List.mem_cons.mp hy with rfl | hy'
    · rfl
    · exact absurd (hid ▸ List.mem_map_of_mem GPUJob.job_id hy') h.1
    · exact absurd (hid ▸ List.mem_map_of_mem GPUJob.job_id hx') h.1
    · exact ih h.2 hx' hy'

/-- A member whose id differs from the updated id survives the update. -/
theorem mem_update_job_fields_of_ne {l : List GPUJob} {x : GPUJob}
    (hx : x ∈ l) {id : String} (hne : x.job_id ≠ id) (st : String) (sf : Int) :
    x ∈ update_job_fields l id st sf := by
  induction l with
  | nil => cases hx
  | cons j rest ih =>
    by_cases h : j.job_id = id
    · rcases List.mem_cons.mp hx with rfl | hx'
      · exact absurd h hne
      · simp [update_job_fields, h, List.mem_cons, hx']
    · rcases List.mem_cons.mp hx with rfl | hx'
      · simp [update_job_fields, h]
      · simp only [update_job_fields, if_neg h, List.mem_cons]
        exact Or.inr (ih hx')

/-- A member of the updated store whose id differs from the updated id was
already in the store. -/
theorem mem_of_mem_update_job_fields_ne {l : List GPUJob} {x : GPUJob}
    {id st : String} {sf : Int} (hx : x ∈ update_job_fields l id st sf)
    (hne : x.job_id ≠ id) : x ∈ l := by
  induction l with
  | nil => cases hx
  | cons j rest ih =>
    by_cases h : j.job_id = id
    · rw [update_job_fields, if_pos h] at hx
      rcases List.mem_cons.mp hx with rfl | hx'
      · exact absurd h hne
      · exact List.mem_cons_of_mem _ hx'
    · rw [update_job_fields, if_neg h] at hx
      rcases List.mem_cons.mp hx with rfl | hx'
      · exact List.mem_cons_self _ _
      · exact List.mem_cons_of_mem _ (ih hx')

/-- When ids are pairwise distinct and `q` is in the store, updating `q`'s id
puts the updated copy of `q` itself into the store. -/
theorem updated_mem_update_job_fields {l : List GPUJob}
    (hnd : (jobIds l).Nodup) {q : GPUJob} (hq : q ∈ l) (st : String) (sf : Int) :
    { q with status := st, scheduled_for := some sf } ∈
      update_job_fields l q.job_id st sf := by
  induction l with
  | nil => cases hq
  | cons j rest ih =>
    rw [jobIds_cons, List.nodup_cons] at hnd
    by_cases h : j.job_id = q.job_id
    · have hjq : q = j := by
        rcases List.mem_cons.mp hq with rfl | hq'
        · rfl
        · exact absurd (h ▸ List.mem_map_of_mem GPUJob.job_id hq') hnd.1
      rw [update_job_fields, if_pos h, hjq]
      exact List.mem_cons_self _ _
    · have hq' : q ∈ rest := by
        rcases List.mem_cons.mp hq with rfl | hq'
        · exact absurd rfl h
        · exact hq'
      rw [update_job_fields, if_neg h]
      exact List.mem_cons_of_mem _ (ih hnd.2 hq')

/-- When ids are pairwise distinct and `q` is in the store, every member of
the updated store carrying `q`'s id is exactly the updated copy of `q`. -/
theorem eq_updated_of_mem_update_job_fields {l : List GPUJob}
    (hnd : (jobIds l).Nodup) {q : GPUJob} (hq : q ∈ l) {st : String} {sf : Int}
    {x : GPUJob} (hx : x ∈ update_job_fields l q.job_id st sf)
    (hid : x.job_id = q.job_id) :
    x = { q with status := st, scheduled_for := some sf } := by
  have hnd' : (jobIds (update_job_fields l q.job_id st sf)).Nodup := by
    rw [jobIds_update_job_fields]; exact hnd
  exact eq_of_mem_of_jobIds_nodup hnd' hx
    (updated_mem_update_job_fields hnd hq st sf) hid

/-! ## Helper lemmas: the prioritized queue -/

/-- Every queued job comes from the store and is `pending`. -/
theorem mem_of_mem_prioritized_queue {jobs : List GPUJob} {q : GPUJob}
    (hq : q ∈ get_prioritized_queue jobs) :
    q ∈ jobs ∧ q.status = JobStatus.PENDING.value := by
  rw [get_prioritized_queue, List.mem_insertionSort, get_jobs_by_status,
    List.mem_filter] at hq
  exact ⟨hq.1, by simpa using hq.2⟩

/-- Distinct store ids give distinct queue ids. -/
theorem jobIds_prioritized_queue_nodup {jobs : List GPUJob}
    (h : (jobIds jobs).Nodup) : (jobIds (get_prioritized_queue jobs)).Nodup := by
  have hperm : (get_prioritized_queue jobs).Perm
      (get_jobs_by_status jobs JobStatus.PENDING.value) :=
    List.perm_insertionSort _ _
  have hsub : List.Sublist (jobIds (get_jobs_by_status jobs JobStatus.PENDING.value))
      (jobIds jobs) := (List.filter_sublist _).map GPUJob.job_id
  exact ((hperm.map GPUJob.job_id).nodup_iff).mpr (h.sublist hsub)

/-! ## Helper lemmas: the evaluation loop over the store -/

/-- Full characterization of the store component of `schedule_loop`: ids are
preserved; every final job whose id was queued is the `decide_job` update of
the corresponding queue entry; jobs whose id was not queued pass through
untouched, in both directions. -/
theorem schedule_loop_store_spec (intensity : Rat) (now : Int) :
    ∀ (queue store : List GPUJob),
      (jobIds queue).Nodup →
      (jobIds store).Nodup →
      (∀ q ∈ queue, q ∈ store) →
      jobIds (schedule_loop intensity now queue store).1 = jobIds store ∧
      (∀ x ∈ (schedule_loop intensity now queue store).1,
          (x.job_id ∉ jobIds queue → x ∈ store) ∧
          (∀ q ∈ queue, q.job_id = x.job_id → x = decide_job intensity now q)) ∧
      (∀ x ∈ store, x.job_id ∉ jobIds queue →
          x ∈ (schedule_loop intensity now queue store).1) := by
  intro queue
  induction queue with
  | nil =>
    intro store _ _ _
    refine ⟨rfl, fun x hx => ⟨fun _ => hx, fun q hq => absurd hq (List.not_mem_nil q)⟩,
      fun x hx _ => hx⟩
  | cons q rest ih =>
    intro store hqnd hsnd hmem
    rw [jobIds_cons, List.nodup_cons] at hqnd
    -- both branches of the loop update the store the same way, up to the
    -- chosen status and timestamp
    have hbranch : ∀ (st : String) (sf : Int),
        decide_job intensity now q = { q with status := st, scheduled_for := some sf } →
        (schedule_loop intensity now (q :: rest) store).1 =
          (schedule_loop intensity now rest
            (update_job_fields store q.job_id st sf)).1 →
        jobIds (schedule_loop intensity now (q :: rest) store).1 = jobIds store ∧
        (∀ x ∈ (schedule_loop intensity now (q :: rest) store).1,
            (x.job_id ∉ jobIds (q :: rest) → x ∈ store) ∧
            (∀ q' ∈ q :: rest, q'.job_id = x.job_id →
              x = decide_job intensity now q')) ∧
        (∀ x ∈ store, x.job_id ∉ jobIds (q :: rest) →
            x ∈ (schedule_loop intensity now (q :: rest) store).1) := by
      intro st sf hdec hunf
      set store' := update_job_fields store q.job_id st sf with hstore'
      have hids' : jobIds store' = jobIds store := jobIds_update_job_fields _ _ _ _
      have hsnd' : (jobIds store').Nodup := by rw [hids']; exact hsnd
      have hq_store : q ∈ store := hmem q (List.mem_cons_self _ _)
      have hmem' : ∀ x ∈ rest, x ∈ store' := by
        intro x hx
        have hxne : x.job_id ≠ q.job_id := fun he =>
          hqnd.1 (he ▸ List.mem_map_of_mem GPUJob.job_id hx)
        exact mem_update_job_fields_of_ne (hmem x (List.mem_cons_of_mem _ hx)) hxne st sf
      obtain ⟨ih1, ih2, ih3⟩ := ih store' hqnd.2 hsnd' hmem'
      rw [hunf]
      refine ⟨ih1.trans hids', ?_, ?_⟩
      · intro x hx
        constructor
        · intro hnx
          rw [jobIds_cons, List.mem_cons] at hnx
          push_neg at hnx
          exact mem_of_mem_update_job_fields_ne ((ih2 x hx).1 hnx.2) hnx.1
        · intro q' hq' hid
          rcases List.mem_cons.mp hq' with rfl | hq'r
          · -- `q'` is the head: its id is not queued later, so the final
            -- element with this id is the one updated in this step
            have hxs : x ∈ store' := (ih2 x hx).1 (hid ▸ hqnd.1)
            rw [hdec]
            exact eq_updated_of_mem_update_job_fields hsnd hq_store hxs hid.symm
          · exact (ih2 x hx).2 q' hq'r hid
      · intro x hx hnx
        rw [jobIds_cons, List.mem_cons] at hnx
        push_neg at hnx
        exact ih3 x (mem_update_job_fields_of_ne hx hnx.1 st sf) hnx.2
    by_cases hlt : intensity < (q.carbon_intensity_threshold : Rat)
    · exact hbranch JobStatus.SCHEDULED.value now
        (by rw [decide_job, if_pos hlt])
        (by rw [schedule_loop, if_pos hlt])
    · exact hbranch JobStatus.DEFERRED.value (now + 6 * 3600)
        (by rw [decide_job, if_neg hlt])
        (by rw [schedule_loop, if_neg hlt])

/-- `schedule_pending_jobs` returns the store produced by the loop. -/
theorem schedule_pending_jobs_fst (jobs : List GPUJob) (region : String)
    (fetch : FetchResult) (jitter now : Int) :
    (schedule_pending_jobs jobs region fetch jitter now).1 =
      (schedule_loop (get_grid_carbon_intensity region fetch jitter).carbonIntensity
        now (get_prioritized_queue jobs) jobs).1 := rfl

/-! ## Example jobs and states used by concrete witnesses -/

/-- A job built with the source defaults: `Pending`, priority 1,
threshold 400. -/
def exJobP : GPUJob :=
  { job_id := "j1", name := "train-resnet", duration_minutes := 60,
    power_draw_watts := 300 }

/-- `exJobP` after being scheduled at time 0. -/
def exJobP_sched : GPUJob :=
  { exJobP with status := JobStatus.SCHEDULED.value, scheduled_for := some 0 }

/-- A job currently `Deferred`. -/
def exJobD : GPUJob :=
  { exJobP with job_id := "j2", status := JobStatus.DEFERRED.value }

/-! ## C1 -/

/-- C1: in every evaluation cycle (any region, any fetch outcome, any
jitter, any clock) over a store with distinct job ids, every job the cycle
considers (i.e. every member of the prioritized queue) ends up `Scheduled`
in the resulting store when the fetched intensity is strictly below its
threshold, and `Deferred` when the intensity is greater than or equal to the
threshold (equality included). -/
theorem claim_evaluate_threshold_policy
    (jobs : List GPUJob) (region : String) (fetch : FetchResult) (jitter now : Int)
    (huniq : (jobIds jobs).Nodup)
    (j : GPUJob) (hj : j ∈ get_prioritized_queue jobs)
    (x : GPUJob) (hx : x ∈ (schedule_pending_jobs jobs region fetch jitter now).1)
    (hid : j.job_id = x.job_id) :
    ((get_grid_carbon_intensity region fetch jitter).carbonIntensity <
        (j.carbon_intensity_threshold : Rat) →
      x.status = JobStatus.SCHEDULED.value) ∧
    ((j.carbon_intensity_threshold : Rat) ≤
        (get_grid_carbon_intensity region fetch jitter).carbonIntensity →
      x.status = JobStatus.DEFERRED.value) := by
  have hqnd := jobIds_prioritized_queue_nodup huniq
  have hmemq : ∀ q ∈ get_prioritized_queue jobs, q ∈ jobs :=
    fun q hq => (mem_of_mem_prioritized_queue hq).1
  obtain ⟨-, h2, -⟩ := schedule_loop_store_spec
    (get_grid_carbon_intensity region fetch jitter).carbonIntensity now
    (get_prioritized_queue jobs) jobs hqnd huniq hmemq
  rw [schedule_pending_jobs_fst] at hx
  have hxd := (h2 x hx).2 j hj hid
  constructor
  · intro hlt
    rw [hxd, decide_job, if_pos hlt]
  · intro hge
    rw [hxd, decide_job, if_neg (not_lt.mpr hge)]

/-- Witness for C1 at a concrete cycle: one pending default job, a
successful fetch reading 100 gCO2/kWh, threshold 400. -/
theorem claim_evaluate_threshold_policy_witness :
    ((get_grid_carbon_intensity "IN" (FetchResult.ok 100) 0).carbonIntensity <
        (exJobP.carbon_intensity_threshold : Rat) →
      exJobP_sched.status = JobStatus.SCHEDULED.value) ∧
    ((exJobP.carbon_intensity_threshold : Rat) ≤
        (get_grid_carbon_intensity "IN" (FetchResult.ok 100) 0).carbonIntensity →
      exJobP_sched.status = JobStatus.DEFERRED.value) :=
  claim_evaluate_threshold_policy [exJobP] "IN" (FetchResult.ok 100) 0 0
    (by simp [jobIds]) exJobP (by decide) exJobP_sched (by decide) rfl

/-! ## C2 -/

/-- C2 counterexample: a `Deferred` job is NOT part of the set an evaluation
cycle reads — `get_prioritized_queue` filters on `pending` only — and the
cycle leaves it untouched even when the grid intensity (100) is far below
its threshold (400), where the claim demands a transition to `Scheduled`. -/
theorem claim_deferred_included_counterexample :
    exJobD.status = JobStatus.DEFERRED.value ∧
    exJobD ∉ get_prioritized_queue [exJobD] ∧
    (schedule_pending_jobs [exJobD] "IN" (FetchResult.ok 100) 0 0).1 = [exJobD] := by
  decide

/-- C2 amended: an evaluation cycle reads only `Pending` jobs; a `Deferred`
job is excluded from the prioritized queue and passes through the cycle
unchanged (it is never re-classified). -/
theorem claim_deferred_not_reevaluated
    (jobs : List GPUJob) (region : String) (fetch : FetchResult) (jitter now : Int)
    (huniq : (jobIds jobs).Nodup)
    (j : GPUJob) (hj : j ∈ jobs) (hst : j.status = JobStatus.DEFERRED.value) :
    j ∉ get_prioritized_queue jobs ∧
    j ∈ (schedule_pending_jobs jobs region fetch jitter now).1 ∧
    (∀ x ∈ (schedule_pending_jobs jobs region fetch jitter now).1,
        x.job_id = j.job_id → x = j) := by
  have hpending_ne : JobStatus.DEFERRED.value ≠ JobStatus.PENDING.value := by decide
  have hnotq : j ∉ get_prioritized_queue jobs := by
    intro hq
    have hp := (mem_of_mem_prioritized_queue hq).2
    rw [hst] at hp
    exact hpending_ne hp
  have hidnot : j.job_id ∉ jobIds (get_prioritized_queue jobs) := by
    intro hmem
    obtain ⟨q, hq, hqid⟩ := List.mem_map.mp hmem
    have hq_jobs := (mem_of_mem_prioritized_queue hq).1
    have hqj : q = j := eq_of_mem_of_jobIds_nodup huniq hq_jobs hj hqid
    have hp := (mem_of_mem_prioritized_queue hq).2
    rw [hqj, hst] at hp
    exact hpending_ne hp
  have hqnd := jobIds_prioritized_queue_nodup huniq
  have hmemq : ∀ q ∈ get_prioritized_queue jobs, q ∈ jobs :=
    fun q hq => (mem_of_mem_prioritized_queue hq).1
  obtain ⟨hids, -, h3⟩ := schedule_loop_store_spec
    (get_grid_carbon_intensity region fetch jitter).carbonIntensity now
    (get_prioritized_queue jobs) jobs hqnd huniq hmemq
  have hjfin : j ∈ (schedule_pending_jobs jobs region fetch jitter now).1 := by
    rw [schedule_pending_jobs_fst]
    exact h3 j hj hidnot
  refine ⟨hnotq, hjfin, ?_⟩
  intro x hx hxid
  rw [schedule_pending_jobs_fst] at hx hjfin
  have hndfin : (jobIds ((schedule_loop
      (get_grid_carbon_intensity region fetch jitter).carbonIntensity now
      (get_prioritized_queue jobs) jobs).1)).Nodup := by
    rw [hids]; exact huniq
  exact eq_of_mem_of_jobIds_nodup hndfin hx hjfin hxid

/-- Witness for the amended C2 at a concrete cycle: a single deferred job
survives an evaluation at intensity 100 unchanged. -/
theorem claim_deferred_not_reevaluated_witness :
    exJobD ∉ get_prioritized_queue [exJobD] ∧
    exJobD ∈ (schedule_pending_jobs [exJobD] "IN" (FetchResult.ok 100) 0 0).1 ∧
    (∀ x ∈ (schedule_pending_jobs [exJobD] "IN" (FetchResult.ok 100) 0 0).1,
        x.job_id = exJobD.job_id → x = exJobD) :=
  claim_deferred_not_reevaluated [exJobD] "IN" (FetchResult.ok 100) 0 0
    (by simp [jobIds]) exJobD (List.mem_singleton.mpr rfl) rfl

/-! ## C3 -/

/-- A job that is already `Completed`. -/
def exJobC : GPUJob :=
  { exJobP with job_id := "j3", status := JobStatus.COMPLETED.value }

/-- A scheduler holding one completed job and a fresh tracker. -/
def exStateC : SchedulerState :=
  { jobs := [exJobC], tracker := {}, schedule_history := [] }

/-- C3 counterexample: `run_scheduled_job` on an already-`Completed` job does
not fail with any `InvalidTransition`-style error — it silently re-runs the
job: it returns the success dictionary and appends a fresh record to the
emissions ledger. -/
theorem claim_runJob_invalid_transition_counterexample :
    exJobC.status = JobStatus.COMPLETED.value ∧
    (run_scheduled_job exStateC "j3" 1 2).2 = RunResult.completed "j3" 1 2 ∧
    (run_scheduled_job exStateC "j3" 1 2).1.tracker.emissions_log.length = 1 := by
  decide

/-- C3 amended: `run_scheduled_job` performs no transition validation at
all: whenever the id is found — whatever the job's current status, including
`Completed` — it re-runs the job, returning the success result and appending
one emissions record; its only failure mode is an unknown id. -/
theorem claim_runJob_no_transition_check
    (st : SchedulerState) (job_id : String) (em du : Rat) (job : GPUJob)
    (hfind : st.jobs.find? (fun j => j.job_id == job_id) = some job) :
    (run_scheduled_job st job_id em du).2 = RunResult.completed job_id em du ∧
    (run_scheduled_job st job_id em du).1.tracker.emissions_log =
      st.tracker.emissions_log ++
        [{ job_name := job.name, emissions_kg_co2 := em, duration_seconds := du,
           country := st.tracker.country_code }] ∧
    (run_scheduled_job st job_id em du).1.schedule_history = st.schedule_history := by
  simp [run_scheduled_job, hfind, start_tracking, stop_tracking]

/-- Witness for the amended C3: running the already-completed job `j3`
succeeds and grows the ledger. -/
theorem claim_runJob_no_transition_check_witness :
    (run_scheduled_job exStateC "j3" 1 2).2 = RunResult.completed "j3" 1 2 ∧
    (run_scheduled_job exStateC "j3" 1 2).1.tracker.emissions_log =
      exStateC.tracker.emissions_log ++
        [{ job_name := exJobC.name, emissions_kg_co2 := 1, duration_seconds := 2,
           country := exStateC.tracker.country_code }] ∧
    (run_scheduled_job exStateC "j3" 1 2).1.schedule_history =
      exStateC.schedule_history :=
  claim_runJob_no_transition_check exStateC "j3" 1 2 exJobC rfl

/-! ## C10 -/

/-- C10: `run_scheduled_job` on an id absent from the store returns the
error result and the state completely unchanged — no job field, no tracker
bracket, no ledger record, no schedule-history entry. -/
theorem claim_runJob_not_found_atomic
    (st : SchedulerState) (job_id : String) (em du : Rat)
    (habsent : ∀ j ∈ st.jobs, j.job_id ≠ job_id) :
    run_scheduled_job st job_id em du = (st, RunResult.jobNotFound) := by
  have hfind : st.jobs.find? (fun j => j.job_id == job_id) = none := by
    rw [List.find?_eq_none]
    intro j hj
    simpa using habsent j hj
  unfold run_scheduled_job
  rw [hfind]

/-- An empty scheduler state. -/
def exStateEmpty : SchedulerState :=
  { jobs := [], tracker := {}, schedule_history := [] }

/-- Witness for C10: running an unknown id on the empty scheduler changes
nothing. -/
theorem claim_runJob_not_found_atomic_witness :
    run_scheduled_job exStateEmpty "ghost" 1 2 = (exStateEmpty, RunResult.jobNotFound) :=
  claim_runJob_not_found_atomic exStateEmpty "ghost" 1 2
    (by intro j hj; simp [exStateEmpty] at hj)

/-! ## C4 -/

/-- A job whose priority 7 lies outside the documented range [1,5]. -/
def exJobBad : GPUJob := { exJobP with job_id := "jbad", priority := 7 }

/-- C4 counterexample: `add_job` performs no validation — a job with
priority 7 (outside [1,5]) is appended to the store and its id returned
instead of being rejected with a `ValidationError`. -/
theorem claim_add_validation_counterexample :
    exJobBad.priority = 7 ∧ ¬(exJobBad.priority ≤ 5) ∧
    (add_job [] exJobBad).1 = [exJobBad] ∧ (add_job [] exJobBad).2 = "jbad" := by
  decide

/-- C4 amended: `add_job` validates nothing: every job — including one with
priority outside [1,5] or non-positive duration/power — is appended to the
store as given and its id returned.  (A job built with the dataclass
defaults does carry status `Pending`, but `add_job` itself neither checks
nor sets it.) -/
theorem claim_add_job_no_validation
    (jobs : List GPUJob) (job : GPUJob)
    (_hinvalid : job.priority < 1 ∨ 5 < job.priority ∨ job.duration_minutes ≤ 0 ∨
      job.power_draw_watts ≤ 0) :
    add_job jobs job = (jobs ++ [job], job.job_id) := rfl

/-- Witness for the amended C4: the priority-7 job is inserted. -/
theorem claim_add_job_no_validation_witness :
    add_job [] exJobBad = ([exJobBad], exJobBad.job_id) :=
  claim_add_job_no_validation [] exJobBad (Or.inr (Or.inl (by decide)))

/-! ## C5 -/

/-- A fresh tracker: no bracket open, empty ledger. -/
def exTracker0 : TrackerState := {}

/-- C5 counterexample: calling `start_tracking` twice in a row does not fail
with `TrackingAlreadyActive` — the second call simply overwrites the open
bracket with the new label; and `stop_tracking` with no active bracket does
not fail with `NoActiveTracking` — it returns the empty result and leaves
the state untouched. -/
theorem claim_tracker_errors_counterexample :
    (start_tracking (start_tracking exTracker0 "job-a") "job-b").tracker_started = true ∧
    (start_tracking (start_tracking exTracker0 "job-a") "job-b").current_job = "job-b" ∧
    (start_tracking (start_tracking exTracker0 "job-a") "job-b").emissions_log = [] ∧
    stop_tracking exTracker0 1 1 = (exTracker0, none) := by
  decide

/-- C5 amended: the ledger never signals misuse: `start_tracking` during an
open bracket succeeds and overwrites it (new label, ledger unchanged), and
`stop_tracking` with no active bracket returns an empty result with the
state unchanged.  Both functions are total — no error is ever raised. -/
theorem claim_tracker_overwrites_and_empty_stop
    (ts : TrackerState) (n1 n2 : String) (em du : Rat)
    (hclosed : ts.tracker_started = false) :
    (start_tracking (start_tracking ts n1) n2).tracker_started = true ∧
    (start_tracking (start_tracking ts n1) n2).current_job = n2 ∧
    (start_tracking (start_tracking ts n1) n2).emissions_log = ts.emissions_log ∧
    stop_tracking ts em du = (ts, none) := by
  refine ⟨rfl, rfl, rfl, ?_⟩
  rw [stop_tracking, hclosed]
  simp

/-- Witness for the amended C5 on a fresh tracker. -/
theorem claim_tracker_overwrites_and_empty_stop_witness :
    (start_tracking (start_tracking exTracker0 "a") "b").tracker_started = true ∧
    (start_tracking (start_tracking exTracker0 "a") "b").current_job = "b" ∧
    (start_tracking (start_tracking exTracker0 "a") "b").emissions_log =
      exTracker0.emissions_log ∧
    stop_tracking exTracker0 1 2 = (exTracker0, none) :=
  claim_tracker_overwrites_and_empty_stop exTracker0 "a" "b" 1 2 rfl

/-! ## C6 -/

theorem get_mock_data_carbonIntensity (region : String) (jitter : Int) :
    (get_mock_data region jitter).carbonIntensity =
      ((mock_baseline region + jitter : Int) : Rat) := rfl

theorem get_mock_data_is_mock (region : String) (jitter : Int) :
    (get_mock_data region jitter).is_mock = true := rfl

/-- C6: `get_grid_carbon_intensity` is a total function — every call,
including every failure outcome, yields a `GridStatus` (the embedding of the
source's catch-all fallback); and on any failure (non-2xx response or
exception) the result is tagged synthetic (`is_mock = true`) with an
intensity inside the jitter band `[baseline - 100, baseline + 100]` around
the region's fixed baseline. -/
theorem claim_fetch_failure_synthetic_band
    (region : String) (fetch : FetchResult) (jitter : Int)
    (hfail : fetch = FetchResult.httpError ∨ fetch = FetchResult.exn)
    (hlo : -100 ≤ jitter) (hhi : jitter ≤ 100) :
    (get_grid_carbon_intensity region fetch jitter).is_mock = true ∧
    ((mock_baseline region - 100 : Int) : Rat) ≤
      (get_grid_carbon_intensity region fetch jitter).carbonIntensity ∧
    (get_grid_carbon_intensity region fetch jitter).carbonIntensity ≤
      ((mock_baseline region + 100 : Int) : Rat) := by
  have hmock : get_grid_carbon_intensity region fetch jitter =
      get_mock_data region jitter := by
    rcases hfail with rfl | rfl <;> rfl
  rw [hmock, get_mock_data_carbonIntensity, get_mock_data_is_mock]
  refine ⟨rfl, Int.cast_le.mpr (by omega), Int.cast_le.mpr (by omega)⟩

/-- Witness for C6: the hydro-heavy region `NO` (baseline 50) under a forced
non-2xx response with zero jitter. -/
theorem claim_fetch_failure_synthetic_band_witness :
    (get_grid_carbon_intensity "NO" FetchResult.httpError 0).is_mock = true ∧
    ((mock_baseline "NO" - 100 : Int) : Rat) ≤
      (get_grid_carbon_intensity "NO" FetchResult.httpError 0).carbonIntensity ∧
    (get_grid_carbon_intensity "NO" FetchResult.httpError 0).carbonIntensity ≤
      ((mock_baseline "NO" + 100 : Int) : Rat) :=
  claim_fetch_failure_synthetic_band "NO" FetchResult.httpError 0 (Or.inl rfl)
    (by decide) (by decide)

/-! ## C7 -/

/-- C7 counterexample: a successfully fetched intensity of exactly 400 is
classified `LOW`, not `MEDIUM` — the source compares `carbon_intensity <
400` strictly, so the claim's band "200–400 inclusive → MEDIUM" fails at the
upper endpoint. -/
theorem claim_greenness_400_counterexample :
    (get_grid_carbon_intensity "IN" (FetchResult.ok 400) 0).greenness = "LOW" ∧
    (get_grid_carbon_intensity "IN" (FetchResult.ok 400) 0).greenness ≠ "MEDIUM" := by
  decide

/-- C7 amended: on a successful fetch the greenness bands are
`intensity < 200 → HIGH`, `200 ≤ intensity < 400 → MEDIUM`, and
`400 ≤ intensity → LOW` — in particular an intensity of exactly 400 is
classified `LOW`. -/
theorem claim_greenness_bands (region : String) (jitter : Int) (ci : Rat) :
    (ci < 200 →
      (get_grid_carbon_intensity region (FetchResult.ok ci) jitter).greenness = "HIGH") ∧
    (200 ≤ ci → ci < 400 →
      (get_grid_carbon_intensity region (FetchResult.ok ci) jitter).greenness = "MEDIUM") ∧
    (400 ≤ ci →
      (get_grid_carbon_intensity region (FetchResult.ok ci) jitter).greenness = "LOW") := by
  refine ⟨fun h1 => ?_, fun h1 h2 => ?_, fun h1 => ?_⟩
  · simp only [get_grid_carbon_intensity]
    rw [if_pos h1]
  · simp only [get_grid_carbon_intensity]
    rw [if_neg (not_lt.mpr h1), if_pos h2]
  · have h2 : ¬ci < 200 := not_lt.mpr (le_trans (by norm_num) h1)
    simp only [get_grid_carbon_intensity]
    rw [if_neg h2, if_neg (not_lt.mpr h1)]

/-- Witness for the amended C7 at intensities 100, 250 and 400. -/
theorem claim_greenness_bands_witness :
    (get_grid_carbon_intensity "IN" (FetchResult.ok 100) 0).greenness = "HIGH" ∧
    (get_grid_carbon_intensity "IN" (FetchResult.ok 250) 0).greenness = "MEDIUM" ∧
    (get_grid_carbon_intensity "IN" (FetchResult.ok 400) 0).greenness = "LOW" :=
  ⟨(claim_greenness_bands "IN" 0 100).1 (by norm_num),
   (claim_greenness_bands "IN" 0 250).2.1 (by norm_num) (by norm_num),
   (claim_greenness_bands "IN" 0 400).2.2 (by norm_num)⟩

/-! ## C9 -/

/-- C9 counterexample: on an empty ledger the summary does NOT contain all
six fields — the source's empty-log branch returns a dictionary without the
`max_single_job_kg` and `min_single_job_kg` keys (modelled as `none`), so
they are absent rather than present-and-zero. -/
theorem claim_empty_summary_counterexample :
    (get_emissions_summary []).max_single_job_kg = none ∧
    (get_emissions_summary []).min_single_job_kg = none ∧
    (get_emissions_summary []).max_single_job_kg ≠ some 0 := by
  decide

/-- C9 amended: on an empty ledger the summary returns the four fields
`total_jobs`, `total_emissions_kg`, `avg_emissions_per_job_kg` and
`total_duration_hours` all zero, without any arithmetic or lookup error
(division by zero is special-cased away), while `max_single_job_kg` and
`min_single_job_kg` are absent from the result. -/
theorem claim_empty_summary_four_zero_fields :
    get_emissions_summary [] =
      { total_jobs := 0, total_emissions_kg := 0, avg_emissions_per_job_kg := 0,
        total_duration_hours := 0, max_single_job_kg := none,
        min_single_job_kg := none } := rfl

/-! ## C8 — stability of the priority sort -/

/-- Inserting `a` into `l` with the descending-priority relation places `a`
before every element of equal priority and disturbs no other relative
order: filtering any fixed priority class commutes with the insertion. -/
theorem filter_priority_orderedInsert (p : Int) (a : GPUJob) (l : List GPUJob) :
    (List.orderedInsert byPriorityDesc a l).filter (fun j => j.priority == p) =
      if a.priority = p then a :: l.filter (fun j => j.priority == p)
      else l.filter (fun j => j.priority == p) := by
  induction l with
  | nil =>
    by_cases h : a.priority = p <;> simp [List.orderedInsert, h]
  | cons b l ih =>
    simp only [List.orderedInsert]
    by_cases hab : byPriorityDesc a b
    · rw [if_pos hab]
      by_cases h : a.priority = p <;> simp [List.filter_cons, beq_iff_eq, h]
    · rw [if_neg hab]
      have hb : a.priority < b.priority := not_le.mp (by simpa [byPriorityDesc] using hab)
      by_cases h : a.priority = p
      · have hbp : b.priority ≠ p := by omega
        rw [if_pos h]
        simp [List.filter_cons, beq_iff_eq, hbp, ih, h]
      · rw [if_neg h]
        simp [List.filter_cons, beq_iff_eq, ih, h]

/-- The stable sort keeps every equal-priority class in its original
(insertion) order. -/
theorem filter_priority_insertionSort (p : Int) (l : List GPUJob) :
    (List.insertionSort byPriorityDesc l).filter (fun j => j.priority == p) =
      l.filter (fun j => j.priority == p) := by
  induction l with
  | nil => rfl
  | cons a l ih =>
    simp only [List.insertionSort]
    rw [filter_priority_orderedInsert]
    by_cases h : a.priority = p
    · rw [if_pos h, ih]
      simp [List.filter_cons, beq_iff_eq, h]
    · rw [if_neg h, ih]
      simp [List.filter_cons, beq_iff_eq, h]

/-- C8: `get_prioritized_queue` returns exactly the `Pending` jobs (a
permutation of the pending filter, every member pending), sorted by priority
descending, and stably: for every priority value, the jobs of that priority
appear in exactly their insertion order in the store. -/
theorem claim_prioritized_queue_sorted_stable (jobs : List GPUJob) :
    (∀ j ∈ get_prioritized_queue jobs, j.status = JobStatus.PENDING.value) ∧
    List.Sorted byPriorityDesc (get_prioritized_queue jobs) ∧
    (get_prioritized_queue jobs).Perm
      (get_jobs_by_status jobs JobStatus.PENDING.value) ∧
    (∀ p : Int, (get_prioritized_queue jobs).filter (fun j => j.priority == p) =
      (get_jobs_by_status jobs JobStatus.PENDING.value).filter
        (fun j => j.priority == p)) :=
  ⟨fun _ hj => (mem_of_mem_prioritized_queue hj).2,
   List.sorted_insertionSort _ _,
   List.perm_insertionSort _ _,
   fun p => filter_priority_insertionSort p _⟩

/-- Jobs submitted in the order a (priority 3), b (priority 5),
c (priority 3): the queue must list b first and keep a before c. -/
def exJobA : GPUJob :=
  { job_id := "a", name := "job-a", duration_minutes := 10,
    power_draw_watts := 100, priority := 3 }

def exJobB : GPUJob := { exJobA with job_id := "b", name := "job-b", priority := 5 }

def exJobE : GPUJob := { exJobA with job_id := "c", name := "job-c", priority := 3 }

def exJobs : List GPUJob := [exJobA, exJobB, exJobE]

/-- Witness for C8 on three concrete jobs with a priority tie. -/
theorem claim_prioritized_queue_sorted_stable_witness :
    exJobB.status = JobStatus.PENDING.value ∧
    (get_prioritized_queue exJobs).filter (fun j => j.priority == 3) =
      (get_jobs_by_status exJobs JobStatus.PENDING.value).filter
        (fun j => j.priority == 3) :=
  ⟨(claim_prioritized_queue_sorted_stable exJobs).1 exJobB (by decide),
   (claim_prioritized_queue_sorted_stable exJobs).2.2.2 3⟩

end EcoCompute
